import Mathlib

/-!
Shallow embedding of `check-speedtest.py`, a Nagios check for internet
connection speed, together with theorems settling the specification claims.

Modelling conventions:
* Python floats (measured speeds) are modelled as exact rationals `ℚ`.
* Python `int` values (thresholds, return codes) are `ℤ` / `ℕ`.
* Optional constructor arguments defaulting to `None` are `Option ℤ`.
* `sys.exit`, uncaught exceptions and normal returns of `SpeedTest.run`
  and `main` are modelled by explicit outcome types.
* Python string formatting `f-strings` are modelled by explicit string
  concatenation; `format(x, '.2f')` / `format(x, '.0f')` round half to
  even, which is what `formatFixed2` / `formatFixed0` implement on the
  exact rational value.
-/

/-- Nagios return code OK (line 28 of the source). -/
def OK : ℕ := 0

/-- Nagios return code WARNING (line 29). -/
def WARNING : ℕ := 1

/-- Nagios return code CRITICAL (line 30). -/
def CRITICAL : ℕ := 2

/-- Nagios return code UNKNOWN (line 31). -/
def UNKNOWN : ℕ := 3

/-- Display labels for the return codes (line 32 of the source). -/
def return_codes : List String := ["OK", "WARNING", "CRITICAL", "UNKNOWN"]

/-- Round the fraction n / d (with d positive) to the nearest integer,
ties going to the even integer.  This is the rounding performed by
Python fixed-point float formatting on an exactly representable value. -/
def roundHalfEvenFrac (n : ℤ) (d : ℕ) : ℤ :=
  let f := Int.fdiv n d
  let r := n - f * d
  if 2 * r < d then f
  else if (d : ℤ) < 2 * r then f + 1
  else if f % 2 = 0 then f else f + 1

/-- Two-decimal fixed-point rendering of a rational, as Python
`format(x, '.2f')` renders the exact value: the value scaled by 100,
here written as the fraction (num * 100) / den, is rounded half to even
and printed with exactly two digits after the point. -/
def formatFixed2 (q : ℚ) : String :=
  let m := roundHalfEvenFrac (q.num * 100) q.den
  let sign := if m < 0 then "-" else ""
  let n := m.natAbs
  sign ++ toString (n / 100) ++ "." ++ (if n % 100 < 10 then "0" else "") ++ toString (n % 100)

/-- Integer fixed-point rendering of a rational, as Python
`format(x, '.0f')` renders the exact value: the fraction num / den is
rounded half to even and printed as an integer. -/
def formatFixed0 (q : ℚ) : String :=
  toString (roundHalfEvenFrac q.num q.den)

/-- Division of a rational by 1000000 (the bits-per-second to Mbit/s
conversion on lines 100-101), expressed through `mkRat` so that it
evaluates by kernel reduction; `divMega_eq` proves it equal to ordinary
division by 1000000. -/
def divMega (q : ℚ) : ℚ := mkRat q.num (q.den * 1000000)

/-- State of the `SpeedTest` object (lines 71-80): measured speeds,
the four optional thresholds, and the return-code field `rc` that
records whether a measurement run has happened (`-1` = no run yet). -/
structure SpeedTest where
  download : ℚ
  upload : ℚ
  download_warning : Option ℤ
  download_critical : Option ℤ
  upload_warning : Option ℤ
  upload_critical : Option ℤ
  rc : ℤ
  deriving DecidableEq

/-- Constructor `SpeedTest.__init__` (lines 72-80): speeds start at 0,
thresholds are the given optional values, `rc` starts at -1. -/
def SpeedTest.init (download_warning download_critical upload_warning upload_critical : Option ℤ) :
    SpeedTest :=
  { download := 0, upload := 0,
    download_warning := download_warning, download_critical := download_critical,
    upload_warning := upload_warning, upload_critical := upload_critical,
    rc := -1 }

/-- Condition `t is not None and speed <= t and t > 0`, the shape of all
four threshold checks on lines 112-123, with the conjuncts in source
order. -/
def check_low (speed : ℚ) (t : Option ℤ) : Bool :=
  match t with
  | none => false
  | some t => decide (speed ≤ (t : ℚ)) && decide (t > 0)

/-- Severity after the two download checks (lines 112-116): two
independent `if` statements; critical first, then the ungated warning
check, each assigning to `result`. -/
def severity_after_download (st : SpeedTest) : ℕ :=
  let result := OK
  let result := if check_low st.download st.download_critical then CRITICAL else result
  if check_low st.download st.download_warning then WARNING else result

/-- Severity after the upload-critical check (lines 118-120), which can
upgrade whatever the download checks produced. -/
def severity_after_upload_critical (st : SpeedTest) : ℕ :=
  if check_low st.upload st.upload_critical then CRITICAL
  else severity_after_download st

/-- Final severity (lines 112-123): the upload-warning check
(lines 121-123) is additionally gated on `result != CRITICAL`. -/
def severity_of (st : SpeedTest) : ℕ :=
  let result := severity_after_upload_critical st
  if check_low st.upload st.upload_warning && decide (result ≠ CRITICAL) then WARNING
  else result

/-- Method `SpeedTest.create_output` (lines 105-135).  Returns
`Except.error` for the `TypeError` that Python raises while building the
performance-data f-string (lines 126-131) when a threshold is `None`
and therefore compared with `0`; the severity checks themselves are
guarded by `is not None` and never raise. -/
def SpeedTest.create_output (st : SpeedTest) : Except String (ℕ × String) :=
  if st.rc ≥ 0 then
    let result := severity_of st
    match st.download_warning, st.download_critical, st.upload_warning, st.upload_critical with
    | some dw, some dc, some uw, some uc =>
      let msg := return_codes.getD result "" ++ ": Download=" ++ formatFixed2 st.download
        ++ " Upload=" ++ formatFixed2 st.upload
      let perfdata := "Download=" ++ formatFixed0 st.download ++ ";"
        ++ (if dw > 0 then toString dw else "") ++ ";"
        ++ (if dc > 0 then toString dc else "") ++ ";; Upload="
        ++ formatFixed0 st.upload ++ ";"
        ++ (if uw > 0 then toString uw else "") ++ ";"
        ++ (if uc > 0 then toString uc else "") ++ ";;"
      Except.ok (result, msg ++ "|" ++ perfdata)
    | _, _, _, _ => Except.error "TypeError: unsupported comparison of NoneType and int"
  else
    Except.ok (UNKNOWN, return_codes.getD UNKNOWN "" ++ ": Download=? Upload=?")

deriving instance DecidableEq for Except

/-- Outcome of the external `speedtest-cli --csv` subprocess call on
line 86, as seen by the `try` block of `SpeedTest.run` (lines 84-98).
`completed` is a zero-status finish within the timeout; its stdout,
stripped and split on commas, is abstracted as the list of fields where
each field carries `some v` when Python `float` parses it to the value
`v` and `none` when it does not. -/
inductive SubprocessResult where
  | timeoutExpired
  | valueErrorInRun
  | fileNotFound
  | otherException (msg : String)
  | completed (fields : List (Option ℚ))
  deriving DecidableEq

/-- Outcome of `SpeedTest.run` (lines 82-103): `exited c` models
`sys.exit(c)`; `uncaught e` models an exception escaping the method
(the parsing on lines 100-101 sits outside the `try` block, so its
`IndexError` / `ValueError` propagate out of `main` and terminate the
interpreter with exit status 1); `measured st` is a normal return with
the updated object state. -/
inductive RunOutcome where
  | exited (code : ℕ)
  | uncaught (exc : String)
  | measured (st : SpeedTest)
  deriving DecidableEq

/-- Method `SpeedTest.run` (lines 82-103).  `TimeoutExpired` and
`ValueError` inside the `try` block exit with UNKNOWN (lines 90-92),
`FileNotFoundError` exits with CRITICAL (lines 93-95), any other
exception exits with CRITICAL (lines 96-98).  On a completed subprocess
call, `rc` is set to the (zero) return code and the 7th and 8th
comma-separated fields are parsed as floats and divided by 1000000
(lines 100-101); a missing field raises `IndexError` and a non-numeric
field raises `ValueError`, both uncaught. -/
def SpeedTest.run (st : SpeedTest) (res : SubprocessResult) : RunOutcome :=
  match res with
  | .timeoutExpired => .exited UNKNOWN
  | .valueErrorInRun => .exited UNKNOWN
  | .fileNotFound => .exited CRITICAL
  | .otherException _ => .exited CRITICAL
  | .completed fields =>
    match fields[6]? with
    | none => .uncaught "IndexError: list index out of range"
    | some none => .uncaught "ValueError: could not convert string to float"
    | some (some dBits) =>
      match fields[7]? with
      | none => .uncaught "IndexError: list index out of range"
      | some none => .uncaught "ValueError: could not convert string to float"
      | some (some uBits) =>
        .measured { st with rc := 0, download := divMega dBits, upload := divMega uBits }

/-- Function `get_thresholds` (lines 170-182): clamp each command-line
value to be non-negative and raise each warning threshold to the
corresponding critical threshold when it is lower. -/
def get_thresholds (mindownload_warning mindownload_critical minupload_warning minupload_critical : ℤ) :
    ℤ × ℤ × ℤ × ℤ :=
  let wdown := max mindownload_warning 0
  let cdown := max mindownload_critical 0
  let wdown := if wdown < cdown then cdown else wdown
  let wup := max minupload_warning 0
  let cup := max minupload_critical 0
  let wup := if wup < cup then cup else wup
  (wdown, cdown, wup, cup)

/-- Outcome of `main` (lines 185-201): termination through `sys.exit`
inside `SpeedTest.run`, termination through an uncaught exception, or a
normal completion that prints `message` and returns `result` to the
caller. -/
inductive MainOutcome where
  | exited (code : ℕ)
  | uncaught (exc : String)
  | finished (result : ℕ) (message : String)
  deriving DecidableEq

/-- Function `main` (lines 185-201) for given command-line threshold
values and a given subprocess outcome: thresholds are normalized by
`get_thresholds`, a `SpeedTest` is constructed from them, `run` is
invoked, and on a normal run `create_output` produces the result and
message that `main` returns. -/
def main_run (mw mc Mw Mc : ℤ) (sub : SubprocessResult) : MainOutcome :=
  let t := get_thresholds mw mc Mw Mc
  let st := SpeedTest.init (some t.1) (some t.2.1) (some t.2.2.1) (some t.2.2.2)
  match st.run sub with
  | .exited c => .exited c
  | .uncaught e => .uncaught e
  | .measured st2 =>
    match st2.create_output with
    | .error e => .uncaught e
    | .ok (result, message) => .finished result message

/-- Process exit status of the whole script (lines 204-205): the
module-level call `main()` discards the value `main` returns, so a
normally completed run exits the interpreter with status 0; `sys.exit(c)`
exits with `c`; an uncaught exception makes the interpreter exit with
status 1. -/
def script_exit_code (mw mc Mw Mc : ℤ) (sub : SubprocessResult) : ℕ :=
  match main_run mw mc Mw Mc sub with
  | .exited c => c
  | .uncaught _ => 1
  | .finished _ _ => 0

/-- SpeedTest state after a successful run that measured download speed
d and upload speed u (in Mbit/s), with the four given thresholds, as
produced by `main` through `SpeedTest.run`. -/
def st_of (d u : ℚ) (dw dc uw uc : ℤ) : SpeedTest :=
  { download := d, upload := u,
    download_warning := some dw, download_critical := some dc,
    upload_warning := some uw, upload_critical := some uc,
    rc := 0 }

/-- SpeedTest constructed as `SpeedTest(1, 2, 3, 4)` in the repository
tests, with no run performed (`rc = -1`). -/
def st_norun : SpeedTest := SpeedTest.init (some 1) (some 2) (some 3) (some 4)

/-- SpeedTest with an obtained measurement but all four thresholds left
at their constructor default `None`. -/
def st_obtained_none : SpeedTest :=
  { download := 5, upload := 50, download_warning := none, download_critical := none,
    upload_warning := none, upload_critical := none, rc := 0 }

/-- Fields of a completed `speedtest-cli --csv` line measuring
5000000 bit/s download and 50000000 bit/s upload; the first six fields
(server data, timestamp, ping) are not numeric and are never read by the
program. -/
def fieldsWarn : List (Option ℚ) :=
  [none, none, none, none, none, none, some 5000000, some 50000000]

/-- Fields of a completed subprocess whose output has only seven
comma-separated fields, one too few. -/
def fieldsShort : List (Option ℚ) :=
  [none, none, none, none, none, none, some 5000000]

/-- Composition of `get_thresholds` and evaluation exactly as `main`
performs it (lines 193-198): normalize the four command-line values,
construct the `SpeedTest`, and evaluate a measurement (d, u). -/
def pipeline_output (d u : ℚ) (mw mc Mw Mc : ℤ) : Except String (ℕ × String) :=
  let t := get_thresholds mw mc Mw Mc
  (st_of d u t.1 t.2.1 t.2.2.1 t.2.2.2).create_output

/-- Bridge lemma: `divMega` is exactly division by 1000000. -/
theorem divMega_eq (q : ℚ) : divMega q = q / 1000000 := by
  unfold divMega
  rw [Rat.mkRat_eq_div]
  push_cast
  rw [div_mul_eq_div_div, Rat.num_div_den]

/-- Normalization raises the download warning threshold to the download
critical threshold when it is lower. -/
theorem get_thresholds_raise_down (w c W C : ℤ) (h : w < c) :
    get_thresholds w c W C = get_thresholds c c W C := by
  simp only [get_thresholds, Prod.mk.injEq, and_true, true_and]
  split_ifs <;> omega

/-- Normalization raises the upload warning threshold to the upload
critical threshold when it is lower. -/
theorem get_thresholds_raise_up (w c W C : ℤ) (h : W < C) :
    get_thresholds w c W C = get_thresholds w c C C := by
  simp only [get_thresholds, Prod.mk.injEq, and_true, true_and]
  split_ifs <;> omega

/-- Shape of `create_output` on a state with a completed run and all
four thresholds present (lines 107-135). -/
theorem create_output_ok (st : SpeedTest) (dw dc uw uc : ℤ)
    (hrc : st.rc ≥ 0) (h1 : st.download_warning = some dw) (h2 : st.download_critical = some dc)
    (h3 : st.upload_warning = some uw) (h4 : st.upload_critical = some uc) :
    st.create_output = Except.ok (severity_of st,
      return_codes.getD (severity_of st) "" ++ ": Download=" ++ formatFixed2 st.download
        ++ " Upload=" ++ formatFixed2 st.upload ++ "|"
        ++ ("Download=" ++ formatFixed0 st.download ++ ";"
        ++ (if dw > 0 then toString dw else "") ++ ";"
        ++ (if dc > 0 then toString dc else "") ++ ";; Upload="
        ++ formatFixed0 st.upload ++ ";"
        ++ (if uw > 0 then toString uw else "") ++ ";"
        ++ (if uc > 0 then toString uc else "") ++ ";;")) := by
  unfold SpeedTest.create_output
  rw [if_pos hrc, h1, h2, h3, h4]

/-- Condition of a threshold check whose threshold is zero is false. -/
theorem check_low_zero (x : ℚ) : check_low x (some 0) = false := by
  simp [check_low]

/-- With all four thresholds at 0 no check fires and the severity is OK. -/
theorem severity_defaults (d u : ℚ) : severity_of (st_of d u 0 0 0 0) = OK := by
  simp [severity_of, severity_after_upload_critical, severity_after_download, st_of, check_low]


/-- C1: the claim says a completed evaluation terminates the process
with the exit code equal to the computed severity (WARNING giving 1).
On the code this fails: `main` returns the severity (line 201) but the
module-level call `main()` (line 205) discards that value, so the
interpreter exits with status 0.  Concretely, a run with a download
warning threshold of 10 and a measured 5 Mbit/s download completes
evaluation with severity WARNING, yet the script exit status is 0. -/
theorem c1_completed_run_exits_zero :
    main_run 10 0 0 0 (SubprocessResult.completed fieldsWarn) =
      MainOutcome.finished WARNING
        "WARNING: Download=5.00 Upload=50.00|Download=5;10;;; Upload=50;;;;" ∧
    script_exit_code 10 0 0 0 (SubprocessResult.completed fieldsWarn) = 0 ∧
    WARNING = 1 := by decide

/-- C2: the claim says that with normalized thresholds, download at or
below the positive download-critical threshold yields final severity
CRITICAL.  On the code this fails: normalization forces
downloadWarning >= downloadCritical > 0, so whenever the critical check
fires the ungated warning check (line 115) also fires and overwrites the
CRITICAL with WARNING.  Concretely, thresholds normalized from
(0, 10, 0, 0) give (10, 10, 0, 0), and a 5 Mbit/s download then
evaluates to WARNING, not CRITICAL. -/
theorem c2_download_critical_overwritten :
    get_thresholds 0 10 0 0 = (10, 10, 0, 0) ∧
    severity_of (st_of 5 50 10 10 0 0) = WARNING ∧
    (st_of 5 50 10 10 0 0).create_output =
      Except.ok (WARNING,
        "WARNING: Download=5.00 Upload=50.00|Download=5;10;10;; Upload=50;;;;") ∧
    WARNING ≠ CRITICAL := by decide

/-- C3 counterexample: a completed subprocess whose output has only
seven comma-separated fields does not terminate the run with the
UNKNOWN severity outcome; the indexing on line 101 raises an uncaught
IndexError, so the interpreter exits with status 1, not UNKNOWN = 3. -/
theorem c3_counterexample_short_output_not_unknown :
    st_norun.run (SubprocessResult.completed fieldsShort) =
      RunOutcome.uncaught "IndexError: list index out of range" ∧
    script_exit_code 1 2 3 4 (SubprocessResult.completed fieldsShort) = 1 ∧
    (1 : ℕ) ≠ UNKNOWN := by decide

/-- C3 amended: for every completed subprocess whose output does not
parse (missing or non-numeric field at position 6 or 7), the run aborts
with an uncaught exception and the script exits with the interpreter
failure status 1; the measurement is never silently defaulted. -/
theorem c3_parse_failure_uncaught (st : SpeedTest) (mw mc Mw Mc : ℤ)
    (fields : List (Option ℚ))
    (h : fields[6]? = none ∨ fields[6]? = some none ∨
         fields[7]? = none ∨ fields[7]? = some none) :
    (∃ e, st.run (SubprocessResult.completed fields) = RunOutcome.uncaught e) ∧
    script_exit_code mw mc Mw Mc (SubprocessResult.completed fields) = 1 := by
  have key : ∀ s : SpeedTest,
      ∃ e, s.run (SubprocessResult.completed fields) = RunOutcome.uncaught e := by
    intro s
    rcases h6 : fields[6]? with _ | v6
    · exact ⟨"IndexError: list index out of range", by simp [SpeedTest.run, h6]⟩
    · rcases v6 with _ | d6
      · exact ⟨"ValueError: could not convert string to float", by simp [SpeedTest.run, h6]⟩
      · rcases h7 : fields[7]? with _ | v7
        · exact ⟨"IndexError: list index out of range", by simp [SpeedTest.run, h6, h7]⟩
        · rcases v7 with _ | d7
          · exact ⟨"ValueError: could not convert string to float",
              by simp [SpeedTest.run, h6, h7]⟩
          · rcases h with h | h | h | h <;> simp_all
  refine ⟨key st, ?_⟩
  obtain ⟨e, he⟩ := key (SpeedTest.init (some (get_thresholds mw mc Mw Mc).1)
    (some (get_thresholds mw mc Mw Mc).2.1) (some (get_thresholds mw mc Mw Mc).2.2.1)
    (some (get_thresholds mw mc Mw Mc).2.2.2))
  simp [script_exit_code, main_run, he]

/-- C3 witness: the amended theorem applied to the seven-field output. -/
theorem c3_parse_failure_uncaught_witness :
    (∃ e, st_norun.run (SubprocessResult.completed fieldsShort) = RunOutcome.uncaught e) ∧
    script_exit_code 1 2 3 4 (SubprocessResult.completed fieldsShort) = 1 :=
  c3_parse_failure_uncaught st_norun 1 2 3 4 fieldsShort (by decide)

/-- C4: if the severity is already CRITICAL when the upload-warning
check runs (lines 121-123), a firing upload-warning condition does not
downgrade it: the check is gated on `result != CRITICAL`. -/
theorem c4_upload_warning_gated (st : SpeedTest) (uw : ℤ)
    (hw : st.upload_warning = some uw) (hpos : uw > 0) (hle : st.upload ≤ (uw : ℚ))
    (hcrit : severity_after_upload_critical st = CRITICAL) :
    severity_of st = CRITICAL := by
  unfold severity_of
  simp [hcrit]

/-- C4 witness: upload critical and warning both 10, upload 5 Mbit/s,
severity CRITICAL from the upload-critical check, final severity
CRITICAL. -/
theorem c4_upload_warning_gated_witness :
    severity_of (st_of 50 5 0 0 10 10) = CRITICAL :=
  c4_upload_warning_gated (st_of 50 5 0 0 10 10) 10 rfl (by decide) (by decide) (by decide)

/-- C5: threshold construction raises a warning value below the
critical value up to the critical value, independently in each
direction, so the pipeline of normalization and evaluation gives the
same Report for (warning=w, critical=c) with w < c as for
(warning=c, critical=c), whatever the thresholds of the other
direction are. -/
theorem c5_normalization (d u : ℚ) (w c W C : ℤ) :
    (w < c → pipeline_output d u w c W C = pipeline_output d u c c W C) ∧
    (W < C → pipeline_output d u w c W C = pipeline_output d u w c C C) := by
  constructor
  · intro hd
    unfold pipeline_output
    rw [get_thresholds_raise_down w c W C hd]
  · intro hu
    unfold pipeline_output
    rw [get_thresholds_raise_up w c W C hu]

/-- C5 witness: download normalization at warning=10, critical=50 with
the upload thresholds left at their defaults (0, 0), the spec's own
example, and upload normalization at (3, 4) with download defaults. -/
theorem c5_normalization_witness :
    pipeline_output 5 50 10 50 0 0 = pipeline_output 5 50 50 50 0 0 ∧
    pipeline_output 5 50 0 0 3 4 = pipeline_output 5 50 0 0 4 4 :=
  ⟨(c5_normalization 5 50 10 50 0 0).1 (by decide),
   (c5_normalization 5 50 0 0 3 4).2 (by decide)⟩

/-- C6: with no measurement obtained (`rc < 0`), `create_output`
returns exactly UNKNOWN with the fixed summary and no performance-data
segment, whatever the thresholds are. -/
theorem c6_no_run_unknown (st : SpeedTest) (h : st.rc < 0) :
    st.create_output = Except.ok (UNKNOWN, "UNKNOWN: Download=? Upload=?") := by
  unfold SpeedTest.create_output
  rw [if_neg (by omega)]
  rfl

/-- C6 witness: `SpeedTest(1, 2, 3, 4)` with no run performed. -/
theorem c6_no_run_unknown_witness :
    st_norun.create_output = Except.ok (UNKNOWN, "UNKNOWN: Download=? Upload=?") :=
  c6_no_run_unknown st_norun (by decide)

/-- C7: download 5.00, upload 50.00, download warning 10, all other
thresholds 0: severity WARNING, two-decimal speeds in the summary,
integer speeds in the perf segment, zero thresholds rendered empty. -/
theorem c7_warning_scenario :
    (st_of 5 50 10 0 0 0).create_output =
      Except.ok (WARNING,
        "WARNING: Download=5.00 Upload=50.00|Download=5;10;;; Upload=50;;;;") := by
  decide

/-- C8: with all four thresholds at their default 0 (disabled), any
non-negative measurement pair evaluates to severity OK. -/
theorem c8_defaults_ok (d u : ℚ) (hd : 0 ≤ d) (hu : 0 ≤ u) :
    ∃ m, (st_of d u 0 0 0 0).create_output = Except.ok (OK, m) := by
  have hmain := create_output_ok (st_of d u 0 0 0 0) 0 0 0 0 (by simp [st_of]) rfl rfl rfl rfl
  rw [severity_defaults] at hmain
  exact ⟨_, hmain⟩

/-- C8 witness: measurement (100, 100) with all thresholds 0 is OK. -/
theorem c8_defaults_ok_witness :
    ∃ m, (st_of 100 100 0 0 0 0).create_output = Except.ok (OK, m) :=
  c8_defaults_ok 100 100 (by decide) (by decide)

/-- C9: a timeout of the bounded wait exits with UNKNOWN (lines 90-92)
and a missing executable exits with CRITICAL (lines 93-95); in both
cases the run terminates at the failure point, so the script exit
status is that severity code and evaluation never happens. -/
theorem c9_failure_exit_codes (st : SpeedTest) (mw mc Mw Mc : ℤ) :
    st.run SubprocessResult.timeoutExpired = RunOutcome.exited UNKNOWN ∧
    st.run SubprocessResult.fileNotFound = RunOutcome.exited CRITICAL ∧
    script_exit_code mw mc Mw Mc SubprocessResult.timeoutExpired = UNKNOWN ∧
    script_exit_code mw mc Mw Mc SubprocessResult.fileNotFound = CRITICAL :=
  ⟨rfl, rfl, rfl, rfl⟩

/-- C10: with an obtained measurement (`rc >= 0`) and any threshold
left at its constructor default `None`, `create_output` raises (the
performance-data f-string compares the `None` with 0) instead of
producing a Report. -/
theorem c10_none_threshold_raises (st : SpeedTest) (hrc : st.rc ≥ 0)
    (h : st.download_warning = none ∨ st.download_critical = none ∨
         st.upload_warning = none ∨ st.upload_critical = none) :
    ∃ e, st.create_output = Except.error e := by
  rcases st with ⟨d, u, dw, dc, uw, uc, rc⟩
  unfold SpeedTest.create_output
  rw [if_pos hrc]
  rcases dw with _ | dw <;> rcases dc with _ | dc <;> rcases uw with _ | uw <;>
    rcases uc with _ | uc <;>
    first
      | exact ⟨_, rfl⟩
      | simp at h

/-- C10 witness: measurement obtained, all four thresholds `None`. -/
theorem c10_none_threshold_raises_witness :
    ∃ e, st_obtained_none.create_output = Except.error e :=
  c10_none_threshold_raises st_obtained_none (by decide) (Or.inl rfl)
